import Mathlib

/-!
Shallow embedding of the client-side caching layer of the order-management
system: the service worker in src/static/sw.js (route classification, the
cache-first / network-first / network-first-with-offline-page strategies and
the install/activate lifecycle handlers) and the page-level api helper in
src/static/js/app.js.

The network is modelled as a function from requests to `Option Response`,
with `none` standing for a fetch that throws.  The cache store is an
association list from URL to response; `Cache.put` shadows older entries and
`Cache.matchUrl` reads the newest one, matching the overwrite semantics of
the Cache API as observed through lookups.  The Cache API only stores GET
requests: `cache.put` on any other method rejects with a TypeError and
stores nothing, which `Cache.put` reflects.
-/

namespace RestaurantSW

/-- An HTTP response as the service worker observes it: status code, body
text and content type. -/
structure Response where
  status : Nat
  body : String
  contentType : String
  deriving DecidableEq, Repr

/-- JS `response.ok`: the status is in the 2xx range. -/
def Response.ok (r : Response) : Bool :=
  200 ≤ r.status && r.status ≤ 299

/-- A request as the fetch handler observes it: HTTP method, origin,
URL path, and request mode (`"navigate"` for full-page loads). -/
structure Request where
  method : String
  origin : String
  pathname : String
  mode : String
  deriving DecidableEq, Repr

/-- The full URL of a request, used as the cache key. -/
def Request.url (r : Request) : String :=
  r.origin ++ r.pathname

/-- The cache store: an association list from URL to response. -/
def Cache := List (String × Response)

instance : DecidableEq Cache :=
  inferInstanceAs (DecidableEq (List (String × Response)))

/-- JS `caches.match(request)`: the response stored for this URL, if any. -/
def Cache.matchUrl (c : Cache) (url : String) : Option Response :=
  (c.find? (fun e => e.1 = url)).map (fun e => e.2)

/-- Raw store operation: record a response under a URL, shadowing any older
entry for the same URL. -/
def Cache.putEntry (c : Cache) (url : String) (r : Response) : Cache :=
  (url, r) :: c

/-- JS `cache.put(request, response)`: the Cache API stores a copy, keyed by
URL, for GET requests only; a put with any other method rejects with a
TypeError and stores nothing (the call sites never await the put, so the
rejection only leaves the store unchanged). -/
def Cache.put (c : Cache) (request : Request) (r : Response) : Cache :=
  if request.method = "GET" then c.putEntry request.url r else c

/-- The network environment: `none` models a fetch that throws. -/
def Network := Request → Option Response

/-- Version-stamped name of the single active cache store. -/
def CACHE_NAME : String := "restaurant-manager-v1"

/-- Static assets to pre-cache during installation. -/
def PRECACHE_URLS : List String :=
  ["/", "/tables", "/menu", "/orders", "/static/css/style.css",
   "/static/js/app.js", "/static/manifest.json",
   "/static/icons/icon-192.png", "/static/icons/icon-512.png"]

/-- Offline fallback HTML served when both network and cache miss on a
navigation request (the `OFFLINE_HTML` template literal of sw.js). -/
def OFFLINE_HTML : String :=
  String.intercalate "\n"
    ["<!DOCTYPE html>",
     "<html lang=\"en\">",
     "<head>",
     "  <meta charset=\"UTF-8\">",
     "  <meta name=\"viewport\" content=\"width=device-width, initial-scale=1.0\">",
     "  <title>Offline - Restaurant Manager</title>",
     "  <style>",
     "    * \x7b margin: 0; padding: 0; box-sizing: border-box; \x7d",
     "    body \x7b",
     "      font-family: -apple-system, BlinkMacSystemFont, \"Segoe UI\", Roboto, sans-serif;",
     "      background: #f5f6fa;",
     "      color: #2c3e50;",
     "      display: flex;",
     "      justify-content: center;",
     "      align-items: center;",
     "      min-height: 100vh;",
     "      text-align: center;",
     "      padding: 2rem;",
     "    \x7d",
     "    .offline-container \x7b max-width: 420px; \x7d",
     "    .offline-icon \x7b",
     "      font-size: 4rem;",
     "      margin-bottom: 1.5rem;",
     "      opacity: 0.6;",
     "    \x7d",
     "    h1 \x7b font-size: 1.6rem; margin-bottom: 0.75rem; \x7d",
     "    p \x7b color: #95a5a6; line-height: 1.6; margin-bottom: 1.5rem; \x7d",
     "    button \x7b",
     "      padding: 0.7rem 2rem;",
     "      background: #FF6B35;",
     "      color: #fff;",
     "      border: none;",
     "      border-radius: 6px;",
     "      font-size: 1rem;",
     "      cursor: pointer;",
     "      transition: opacity 0.2s;",
     "    \x7d",
     "    button:hover \x7b opacity: 0.85; \x7d",
     "  </style>",
     "</head>",
     "<body>",
     "  <div class=\"offline-container\">",
     "    <div class=\"offline-icon\">&#x1F50C;</div>",
     "    <h1>You\x27re Offline</h1>",
     "    <p>",
     "      It looks like you\x27ve lost your internet connection.",
     "      Some features may be unavailable until you reconnect.",
     "    </p>",
     "    <button onclick=\"window.location.reload()\">Try Again</button>",
     "  </div>",
     "</body>",
     "</html>"]

/-- Synthetic response returned by `cacheFirst` when cache and network both
fail. -/
def offlineAssetResponse : Response :=
  ⟨503, "Offline — asset unavailable", "text/plain"⟩

/-- Body of the synthetic JSON error response, the output of
`JSON.stringify` on the offline-error object. -/
def offlineJsonBody : String :=
  "\x7b\"error\":\"You are offline and no cached data is available.\"\x7d"

/-- Synthetic response returned by `networkFirst` when network and cache both
fail. -/
def offlineJsonResponse : Response :=
  ⟨503, offlineJsonBody, "application/json"⟩

/-- Synthetic response returned by `networkFirstNavigation` when network and
cache both fail. -/
def offlineHtmlResponse : Response :=
  ⟨503, OFFLINE_HTML, "text/html"⟩

/-- Cache-first strategy: return the cached response if available; otherwise
fetch from the network, cache a 2xx result, and return it; if the fetch
throws, return the synthetic plain-text 503. -/
def cacheFirst (net : Network) (cache : Cache) (request : Request) :
    Response × Cache :=
  match cache.matchUrl request.url with
  | some cachedResponse => (cachedResponse, cache)
  | none =>
    match net request with
    | some networkResponse =>
      if networkResponse.ok then
        (networkResponse, cache.put request networkResponse)
      else
        (networkResponse, cache)
    | none => (offlineAssetResponse, cache)

/-- Network-first strategy: try the network; on success cache GET 2xx
responses and return the live response; on a thrown fetch fall back to the
cache, and failing that to the synthetic JSON 503. -/
def networkFirst (net : Network) (cache : Cache) (request : Request) :
    Response × Cache :=
  match net request with
  | some networkResponse =>
    if request.method = "GET" ∧ networkResponse.ok then
      (networkResponse, cache.put request networkResponse)
    else
      (networkResponse, cache)
  | none =>
    match cache.matchUrl request.url with
    | some cachedResponse => (cachedResponse, cache)
    | none => (offlineJsonResponse, cache)

/-- Network-first strategy with the offline HTML fallback for navigation
requests: caches every 2xx response, and serves `OFFLINE_HTML` when both
network and cache miss. -/
def networkFirstNavigation (net : Network) (cache : Cache)
    (request : Request) : Response × Cache :=
  match net request with
  | some networkResponse =>
    if networkResponse.ok then
      (networkResponse, cache.put request networkResponse)
    else
      (networkResponse, cache)
  | none =>
    match cache.matchUrl request.url with
    | some cachedResponse => (cachedResponse, cache)
    | none => (offlineHtmlResponse, cache)

/-- Extensions recognised by the static-asset test (the alternation of the
regex in `isStaticAsset`, with `woff2?` expanded). -/
def staticAssetExtensions : List String :=
  ["css", "js", "png", "jpg", "jpeg", "gif", "svg", "ico", "woff", "woff2",
   "ttf", "eot"]

/-- Whether a URL path points to a static asset: the path ends in a dot
followed by one of the recognised extensions. -/
def isStaticAsset (pathname : String) : Bool :=
  staticAssetExtensions.any (fun ext => pathname.endsWith ("." ++ ext))

/-- The four route classes of the fetch handler. -/
inductive RouteClass where
  | apiCall
  | staticAsset
  | navigation
  | other
  deriving DecidableEq, Repr

/-- Route classification, following the dispatch order of the fetch
handler. -/
def classify (request : Request) : RouteClass :=
  if request.pathname.startsWith "/api/" then RouteClass.apiCall
  else if isStaticAsset request.pathname then RouteClass.staticAsset
  else if request.mode = "navigate" then RouteClass.navigation
  else RouteClass.other

/-- The strategy each route class is dispatched to. -/
def applyStrategy : RouteClass → Network → Cache → Request → Response × Cache
  | RouteClass.apiCall, net, cache, request => networkFirst net cache request
  | RouteClass.staticAsset, net, cache, request => cacheFirst net cache request
  | RouteClass.navigation, net, cache, request =>
      networkFirstNavigation net cache request
  | RouteClass.other, net, cache, request => networkFirst net cache request

/-- The fetch event handler: `none` means the handler returned without
calling `respondWith`, leaving the request to pass through untouched. -/
def handleFetch (selfOrigin : String) (net : Network) (cache : Cache)
    (request : Request) : Option (Response × Cache) :=
  if request.origin ≠ selfOrigin then
    none
  else if request.pathname.startsWith "/api/" then
    some (networkFirst net cache request)
  else if isStaticAsset request.pathname then
    some (cacheFirst net cache request)
  else if request.mode = "navigate" then
    some (networkFirstNavigation net cache request)
  else
    some (networkFirst net cache request)

/-- JS `cache.add(url)` as the install handler uses it, with its rejection
caught and logged: the entry is stored only when the fetch succeeds with a
2xx response; any failure leaves the cache as it was. -/
def cacheAdd (net : String → Option Response) (cache : Cache)
    (url : String) : Cache :=
  match net url with
  | some r => if r.ok then cache.putEntry url r else cache
  | none => cache

/-- The install handler's pre-cache pass: attempt every URL of
`PRECACHE_URLS` independently against the store. -/
def installPrecache (net : String → Option Response) (cache : Cache) :
    Cache :=
  PRECACHE_URLS.foldl (cacheAdd net) cache

/-- The registry of named cache stores, as `caches.keys` enumerates it. -/
def CacheRegistry := List (String × Cache)

instance : DecidableEq CacheRegistry :=
  inferInstanceAs (DecidableEq (List (String × Cache)))

instance : Membership (String × Cache) CacheRegistry :=
  inferInstanceAs (Membership (String × Cache) (List (String × Cache)))

/-- JS `caches.delete(name)`: remove every store with that name. -/
def cachesDelete (stores : CacheRegistry) (name : String) : CacheRegistry :=
  stores.filter (fun s => s.1 ≠ name)

/-- The activate handler: enumerate the store names, and delete every one
whose name is not `CACHE_NAME`. -/
def activateHandler (stores : CacheRegistry) : CacheRegistry :=
  ((stores.map Prod.fst).filter (fun name => name ≠ CACHE_NAME)).foldl
    cachesDelete stores

/-- The JSON body of an api response as far as the helper inspects it: the
`error` and `message` fields when present as strings. -/
structure ParsedJson where
  errorField : Option String
  messageField : Option String
  deriving DecidableEq, Repr

/-- The object literal returned by the api helper when a 2xx body fails to
parse. -/
def emptyObject : ParsedJson :=
  ⟨none, none⟩

/-- A response as the api helper observes it: status code and the outcome of
`response.json()` (`none` when the body is not valid JSON). -/
structure FetchedResponse where
  status : Nat
  jsonBody : Option ParsedJson
  deriving DecidableEq, Repr

/-- JS `response.ok` for the api helper: status in the 2xx range. -/
def FetchedResponse.ok (r : FetchedResponse) : Bool :=
  200 ≤ r.status && r.status ≤ 299

/-- The ways the api helper's promise can reject. -/
inductive ApiError where
  | network
  | nonJson (status : Nat)
  | serverMessage (message : String)
  deriving DecidableEq, Repr

/-- JS `a || b` on an optional string field: the field's value when present
and truthy (non-empty), otherwise the fallback. -/
def jsStringOr (v : Option String) (fallback : String) : String :=
  match v with
  | some s => if s = "" then fallback else s
  | none => fallback

/-- The page-level api helper of app.js, given the outcome of its fetch
(`none` models a fetch that throws, which the helper rethrows). -/
def api (fetchResult : Option FetchedResponse) :
    Except ApiError ParsedJson :=
  match fetchResult with
  | none => Except.error ApiError.network
  | some response =>
    match response.jsonBody with
    | none =>
      if response.ok then Except.ok emptyObject
      else Except.error (ApiError.nonJson response.status)
    | some data =>
      if response.ok then Except.ok data
      else
        Except.error (ApiError.serverMessage
          (jsStringOr data.errorField
            (jsStringOr data.messageField "Something went wrong.")))

/-! Concrete inputs used by the witnesses below. -/

/-- A same-origin GET request to an API path. -/
def demoGetRequest : Request :=
  ⟨"GET", "https://app.example", "/api/orders", "cors"⟩

/-- A successful JSON response. -/
def demoOkResponse : Response :=
  ⟨200, "[]", "application/json"⟩

/-- A network on which every fetch succeeds with `demoOkResponse`. -/
def demoNetOk : Network :=
  fun _ => some demoOkResponse

/-- A network on which every fetch throws. -/
def demoNetDown : Network :=
  fun _ => none

/-- Claim C1: when the network fetch succeeds, `networkFirst` returns the
live network response unchanged regardless of its status code, and a copy is
stored in the cache exactly when the request method is GET and the response
status is 2xx. -/
theorem networkFirst_success (net : Network) (cache : Cache)
    (request : Request) (r : Response) (h : net request = some r) :
    (networkFirst net cache request).1 = r ∧
    (networkFirst net cache request).2 =
      (if request.method = "GET" ∧ r.ok then cache.put request r
       else cache) := by
  by_cases hc : request.method = "GET" ∧ r.ok
  · simp [networkFirst, h, hc]
  · simp [networkFirst, h, hc]

/-- Witness for C1: a successful GET to an API path returns the live
response and stores a copy. -/
theorem networkFirst_success_witness :
    (networkFirst demoNetOk [] demoGetRequest).1 = demoOkResponse ∧
    (networkFirst demoNetOk [] demoGetRequest).2 =
      (if demoGetRequest.method = "GET" ∧ demoOkResponse.ok then
         Cache.put [] demoGetRequest demoOkResponse
       else []) :=
  networkFirst_success demoNetOk [] demoGetRequest demoOkResponse rfl

/-- Claim C9: whenever the network fetch throws, none of the three
strategies writes to the cache store. -/
theorem strategies_no_write_on_fetch_failure (net : Network) (cache : Cache)
    (request : Request) (h : net request = none) :
    (cacheFirst net cache request).2 = cache ∧
    (networkFirst net cache request).2 = cache ∧
    (networkFirstNavigation net cache request).2 = cache := by
  refine ⟨?_, ?_, ?_⟩ <;>
    cases hcu : cache.matchUrl request.url <;>
      simp [cacheFirst, networkFirst, networkFirstNavigation, h, hcu]

/-- Witness for C9: a down network leaves a nonempty cache untouched under
all three strategies. -/
theorem strategies_no_write_witness :
    (cacheFirst demoNetDown [(demoGetRequest.url, demoOkResponse)]
        demoGetRequest).2 = [(demoGetRequest.url, demoOkResponse)] ∧
    (networkFirst demoNetDown [(demoGetRequest.url, demoOkResponse)]
        demoGetRequest).2 = [(demoGetRequest.url, demoOkResponse)] ∧
    (networkFirstNavigation demoNetDown [(demoGetRequest.url, demoOkResponse)]
        demoGetRequest).2 = [(demoGetRequest.url, demoOkResponse)] :=
  strategies_no_write_on_fetch_failure demoNetDown
    [(demoGetRequest.url, demoOkResponse)] demoGetRequest rfl

/-- Claim C5: route classification is a total function into the four route
classes, decided in priority order — `/api/` prefix first, then the fixed
extension set, then navigate mode, then the default — and for a same-origin
request the fetch handler dispatches each class to its strategy. -/
theorem classify_total_and_dispatch (selfOrigin : String) (net : Network)
    (cache : Cache) (request : Request) (h : request.origin = selfOrigin) :
    handleFetch selfOrigin net cache request =
      some (applyStrategy (classify request) net cache request) ∧
    (classify request = RouteClass.apiCall ↔
       request.pathname.startsWith "/api/" = true) ∧
    (classify request = RouteClass.staticAsset ↔
       request.pathname.startsWith "/api/" = false ∧
       ∃ ext ∈ staticAssetExtensions,
         request.pathname.endsWith ("." ++ ext) = true) ∧
    (classify request = RouteClass.navigation ↔
       request.pathname.startsWith "/api/" = false ∧
       isStaticAsset request.pathname = false ∧
       request.mode = "navigate") ∧
    (classify request = RouteClass.other ↔
       request.pathname.startsWith "/api/" = false ∧
       isStaticAsset request.pathname = false ∧
       request.mode ≠ "navigate") := by
  have hIff : isStaticAsset request.pathname = true ↔
      ∃ ext ∈ staticAssetExtensions,
        request.pathname.endsWith ("." ++ ext) = true := by
    simp [isStaticAsset, List.any_eq_true]
  by_cases h1 : request.pathname.startsWith "/api/" = true <;>
    by_cases h2 : isStaticAsset request.pathname = true <;>
      by_cases h3 : request.mode = "navigate" <;>
        refine ⟨?_, ?_, ?_, ?_, ?_⟩ <;>
          simp_all [handleFetch, classify, applyStrategy, h, h1, h2, h3,
            ← hIff]

/-- Witness for C5: a same-origin API request is dispatched through the
classifier. -/
theorem classify_total_and_dispatch_witness :
    handleFetch "https://app.example" demoNetOk [] demoGetRequest =
      some (applyStrategy (classify demoGetRequest) demoNetOk []
        demoGetRequest) :=
  (classify_total_and_dispatch "https://app.example" demoNetOk []
    demoGetRequest rfl).1

/-- Claim C7: a request whose origin differs from the service worker's own
origin is not answered by any strategy — the fetch handler returns without
responding, so the request passes through and the cache is untouched. -/
theorem cross_origin_ignored (selfOrigin : String) (net : Network)
    (cache : Cache) (request : Request) (h : request.origin ≠ selfOrigin) :
    handleFetch selfOrigin net cache request = none := by
  simp [handleFetch, h]

/-- Witness for C7: a request to a foreign origin is ignored. -/
theorem cross_origin_ignored_witness :
    handleFetch "https://app.example" demoNetOk []
      ⟨"GET", "https://evil.example", "/api/orders", "cors"⟩ = none :=
  cross_origin_ignored "https://app.example" demoNetOk []
    ⟨"GET", "https://evil.example", "/api/orders", "cors"⟩ (by decide)

/-- Folding `cachesDelete` over a list of names keeps exactly the stores
whose name is in none of them. -/
theorem foldl_cachesDelete_eq_filter (names : List String)
    (stores : CacheRegistry) :
    names.foldl cachesDelete stores =
      stores.filter (fun s => decide (s.1 ∉ names)) := by
  induction names generalizing stores with
  | nil => simp
  | cons n ns ih =>
    rw [List.foldl_cons, ih]
    unfold cachesDelete
    rw [List.filter_filter]
    refine List.filter_congr ?_
    intro s _
    by_cases hs : s.1 = n <;> by_cases hs2 : s.1 ∈ ns <;> simp [hs, hs2]

/-- The activate handler keeps exactly the stores named `CACHE_NAME`. -/
theorem activateHandler_eq_filter (stores : CacheRegistry) :
    activateHandler stores =
      stores.filter (fun s => s.1 = CACHE_NAME) := by
  unfold activateHandler
  rw [foldl_cachesDelete_eq_filter]
  refine List.filter_congr ?_
  intro s hs
  have hmem : s.1 ∈ stores.map Prod.fst := List.mem_map_of_mem Prod.fst hs
  by_cases hc : s.1 = CACHE_NAME
  · simp [hc, List.mem_filter]
  · simp [hc, List.mem_filter, hmem]

/-- Keeping only the entries with key `CACHE_NAME` leaves exactly one entry
when keys are distinct and `CACHE_NAME` is among them. -/
theorem filter_current_map_fst (stores : CacheRegistry)
    (h1 : (stores.map Prod.fst).Nodup)
    (h2 : CACHE_NAME ∈ stores.map Prod.fst) :
    ((stores.filter (fun s => s.1 = CACHE_NAME)).map Prod.fst) =
      [CACHE_NAME] := by
  induction stores with
  | nil => simp at h2
  | cons s rest ih =>
    simp only [List.map_cons, List.nodup_cons] at h1
    obtain ⟨hnotin, hnodup⟩ := h1
    by_cases hc : s.1 = CACHE_NAME
    · have hr : rest.filter (fun t => decide (t.1 = CACHE_NAME)) = [] := by
        rw [List.filter_eq_nil_iff]
        intro t ht
        simp only [decide_eq_true_eq]
        intro hEq
        exact hnotin (by rw [← hc] at hEq; exact hEq ▸ List.mem_map_of_mem Prod.fst ht)
      simp [List.filter_cons, hc, hr]
    · have h2' : CACHE_NAME ∈ rest.map Prod.fst := by
        rcases List.mem_cons.mp h2 with hEq | hIn
        · exact absurd hEq.symm hc
        · exact hIn
      rw [List.filter_cons, if_neg (by simpa using hc)]
      exact ih hnodup h2'

/-- Claim C6: after the activate handler completes, every store whose name
differs from `CACHE_NAME` is gone, and — the store names being distinct and
the current store being present from install — exactly the current-version
store remains. -/
theorem activate_leaves_exactly_current (stores : CacheRegistry)
    (h1 : (stores.map Prod.fst).Nodup)
    (h2 : CACHE_NAME ∈ stores.map Prod.fst) :
    (∀ s ∈ activateHandler stores, s.1 = CACHE_NAME) ∧
    (activateHandler stores).map Prod.fst = [CACHE_NAME] := by
  constructor
  · intro s hsmem
    rw [activateHandler_eq_filter] at hsmem
    simpa using (List.mem_filter.mp hsmem).2
  · rw [activateHandler_eq_filter]
    exact filter_current_map_fst stores h1 h2

/-- Witness for C6: activation on a registry holding the current store and
one old-version store leaves exactly the current store. -/
theorem activate_leaves_exactly_current_witness :
    (∀ s ∈ activateHandler
        [("restaurant-manager-v1", ([] : Cache)),
         ("restaurant-manager-v0", ([] : Cache))],
       s.1 = CACHE_NAME) ∧
    (activateHandler
        [("restaurant-manager-v1", ([] : Cache)),
         ("restaurant-manager-v0", ([] : Cache))]).map Prod.fst =
      [CACHE_NAME] :=
  activate_leaves_exactly_current
    [("restaurant-manager-v1", ([] : Cache)),
     ("restaurant-manager-v0", ([] : Cache))]
    (by decide) (by decide)

/-- Looking up a URL after `putEntry` returns the new entry for that URL
and is otherwise unchanged. -/
theorem matchUrl_putEntry (c : Cache) (u url : String) (r : Response) :
    Cache.matchUrl (c.putEntry u r) url =
      if url = u then some r else Cache.matchUrl c url := by
  by_cases h : url = u
  · simp [Cache.putEntry, Cache.matchUrl, List.find?_cons, h]
  · have : ¬(u = url) := fun hu => h hu.symm
    simp [Cache.putEntry, Cache.matchUrl, List.find?_cons, h, this]

/-- Looking up a URL after one `cacheAdd` attempt: the entry changes only
when the attempt was for this URL and fetched a 2xx response. -/
theorem matchUrl_cacheAdd (net : String → Option Response) (c : Cache)
    (u url : String) :
    Cache.matchUrl (cacheAdd net c u) url =
      (match net u with
       | some r => if url = u ∧ r.ok then some r else Cache.matchUrl c url
       | none => Cache.matchUrl c url) := by
  cases hu : net u with
  | none => simp [cacheAdd, hu]
  | some r =>
    by_cases hok : r.ok = true
    · have hca : cacheAdd net c u = c.putEntry u r := by
        simp [cacheAdd, hu, hok]
      rw [hca, matchUrl_putEntry]
      by_cases he : url = u
      · simp [he, hok]
      · simp [he]
    · have hca : cacheAdd net c u = c := by simp [cacheAdd, hu, hok]
      rw [hca]
      simp [hok]

/-- Folding `cacheAdd` over a URL list affects each URL independently: the
final entry for a URL depends only on that URL's own fetch outcome. -/
theorem foldl_cacheAdd_matchUrl (net : String → Option Response)
    (l : List String) (c0 : Cache) (url : String) :
    Cache.matchUrl (l.foldl (cacheAdd net) c0) url =
      (match net url with
       | some r => if url ∈ l ∧ r.ok then some r else Cache.matchUrl c0 url
       | none => Cache.matchUrl c0 url) := by
  induction l generalizing c0 with
  | nil =>
    cases hn : net url with
    | none => rfl
    | some r => simp
  | cons u us ih =>
    rw [List.foldl_cons, ih, matchUrl_cacheAdd]
    cases hn : net url with
    | none =>
      cases hu : net u with
      | none => simp
      | some ru =>
        have hne : ¬(url = u ∧ ru.ok = true) := by
          rintro ⟨he, _⟩
          rw [he, hu] at hn
          exact Option.noConfusion hn
        simp [hne]
    | some r =>
      by_cases hus : url ∈ us ∧ r.ok = true
      · have hmem : url ∈ u :: us := List.mem_cons_of_mem u hus.1
        simp [hus, hus.1, hus.2, hmem]
      · by_cases he : url = u
        · subst he
          rw [hn]
          by_cases hok : r.ok = true
          · simp [hok]
          · simp [hok]
        · cases hu : net u with
          | none => simp [he, hus]
          | some ru =>
            have h1 : ¬(url = u ∧ ru.ok = true) := fun hcon => he hcon.1
            simp [h1, he, hus]

/-- Claim C8: the install-time pre-cache pass is best-effort and total —
for every network environment it completes with a store in which each URL
of the precache list is present exactly when its own fetch succeeded with a
2xx response, and any URL whose fetch-and-store failed leaves that entry
(and every other entry) as it was. -/
theorem installPrecache_best_effort (net : String → Option Response)
    (c0 : Cache) (url : String) :
    Cache.matchUrl (installPrecache net c0) url =
      (match net url with
       | some r =>
         if url ∈ PRECACHE_URLS ∧ r.ok then some r
         else Cache.matchUrl c0 url
       | none => Cache.matchUrl c0 url) :=
  foldl_cacheAdd_matchUrl net PRECACHE_URLS c0 url

/-- Claim C10: the page-level api helper returns normally only for 2xx
responses: any non-ok response makes it reject, with the server-provided
message when the body parses as JSON and an HTTP-status error otherwise,
and a 2xx response whose body is not valid JSON yields the empty object. -/
theorem api_error_contract (response : FetchedResponse) :
    (response.ok = false →
      api (some response) =
        Except.error
          (match response.jsonBody with
           | some data =>
             ApiError.serverMessage
               (jsStringOr data.errorField
                 (jsStringOr data.messageField "Something went wrong."))
           | none => ApiError.nonJson response.status)) ∧
    (∀ d, api (some response) = Except.ok d → response.ok = true) ∧
    (response.ok = true → response.jsonBody = none →
      api (some response) = Except.ok emptyObject) := by
  refine ⟨?_, ?_, ?_⟩
  · intro hok
    cases hb : response.jsonBody with
    | none => simp [api, hb, hok]
    | some data => simp [api, hb, hok]
  · intro d hd
    by_cases hok : response.ok = true
    · exact hok
    · exfalso
      rw [Bool.not_eq_true] at hok
      cases hb : response.jsonBody <;> simp [api, hb, hok] at hd
  · intro hok hb
    simp [api, hb, hok]

/-- Witness for C10: a 404 with a JSON error body rejects with the server
message, and a 204 with a non-JSON body returns the empty object. -/
theorem api_error_contract_witness :
    api (some ⟨404, some ⟨some "Table not found", none⟩⟩) =
      Except.error (ApiError.serverMessage "Table not found") ∧
    api (some ⟨204, none⟩) = Except.ok emptyObject :=
  ⟨(api_error_contract ⟨404, some ⟨some "Table not found", none⟩⟩).1 rfl,
   (api_error_contract ⟨204, none⟩).2.2 rfl rfl⟩

end RestaurantSW
